import Mathlib

/-!
Verification development for the CORD-19 explorer repository.

The repository has two Python sources: `app.py` (the interactive Streamlit
application) and `src/data_analysis.py` (the batch analysis script).  Below we
give a shallow embedding of their data pipeline: loading and deriving record
fields, filtering, searching, aggregation, tokenization and frequency
counting.  Machine floats never carry numeric payloads in the verified
fragment (pandas `NaN`/`NaT` only mark absent values), so absent values are
modelled with `Option` and means with `Rat`.  Date parsing itself
(`pd.to_datetime`) is third-party library code, so load functions are
parameterized by an arbitrary parse function `String → Option Date`; a parse
failure (`errors='coerce'` producing `NaT`) is the `none` result.
-/

namespace Cord19

/-- `runsAux p l acc` accumulates the current run of elements satisfying `p`
(in reverse) in `acc` and emits it when the run ends.  Helper for `runs`. -/
def runsAux {α : Type} (p : α → Bool) : List α → List α → List (List α)
  | [], acc => if acc.isEmpty then [] else [acc.reverse]
  | a :: l, acc =>
    if p a then runsAux p l (a :: acc)
    else if acc.isEmpty then runsAux p l []
    else acc.reverse :: runsAux p l []

/-- The maximal runs of elements satisfying `p`, in order.  With `p` the
word-character test this is exactly Python's `re.findall(r'\b\w+\b', s)`;
with `p` the non-whitespace test it is Python's `str.split()`. -/
def runs {α : Type} (p : α → Bool) (l : List α) : List (List α) :=
  runsAux p l []

/-- Word count of a cell, from both sources:
`len(str(x).split()) if pd.notna(x) and x != '' else 0`. -/
def wordCount : Option String → Nat
  | none => 0
  | some s => if s = "" then 0 else (runs (fun c => !c.isWhitespace) s.data).length

/-- A calendar date, the result of a successful `pd.to_datetime`. -/
structure Date where
  year : Int
  month : Nat
  day : Nat
  deriving DecidableEq

/-- One raw CSV row; a `none` field is a missing (`NaN`) cell. -/
structure RawRow where
  title : Option String
  abstract : Option String
  authors : Option String
  journal : Option String
  source : Option String
  publish_time : Option String
  deriving DecidableEq

/-- One loaded paper with the derived columns added by `load_data`
(`app.py`) and `clean_data` (`data_analysis.py`). -/
structure Record where
  title : Option String
  abstract : Option String
  authors : Option String
  journal : Option String
  source : Option String
  publish_time : Option Date
  year : Option Int
  abstract_word_count : Nat
  title_word_count : Nat
  deriving DecidableEq

/-- Derivation of one record, shared by both loaders:
`publish_time = pd.to_datetime(..., errors='coerce')` (failure gives `NaT`,
that is `none`), `year = publish_time.dt.year` (`NaN`, that is `none`, for
`NaT`), and the two word counts. -/
def loadRow (parse : String → Option Date) (row : RawRow) : Record :=
  let pt := row.publish_time.bind parse
  { title := row.title
    abstract := row.abstract
    authors := row.authors
    journal := row.journal
    source := row.source
    publish_time := pt
    year := pt.map Date.year
    abstract_word_count := wordCount row.abstract
    title_word_count := wordCount row.title }

/-- `app.py` `load_data` (lines 46-63), row part: derives the computed
columns and keeps every row. -/
def load_data (parse : String → Option Date) (rows : List RawRow) : List Record :=
  rows.map (loadRow parse)

/-- `data_analysis.py` `clean_data` first does
`self.cleaned_df['abstract'].fillna('')`. -/
def fillAbstract (row : RawRow) : RawRow :=
  { row with abstract := some (row.abstract.getD "") }

/-- `data_analysis.py` `CORD19Analyzer.clean_data` (lines 73-114): fill
missing abstracts with `''`, derive the computed columns, then
`dropna(subset=['title', 'publish_time'])`. -/
def clean_data (parse : String → Option Date) (rows : List RawRow) : List Record :=
  ((rows.map fillAbstract).map (loadRow parse)).filter
    (fun r => r.title.isSome && r.publish_time.isSome)

/-- A parsed CSV file: its header (column names) and its rows. -/
structure Table where
  cols : List String
  rows : List RawRow

/-- Outcome of `app.py` `load_data`: `ok` (a store), `unavailable` (the
`FileNotFoundError` handler showed an error and returned `None`), or
`keyError` (an uncaught `KeyError` escaping the `except FileNotFoundError`
clause — an unhandled crash). -/
inductive LoadResult where
  | ok (store : List Record)
  | unavailable
  | keyError (col : String)
  deriving DecidableEq

/-- `app.py` `load_data` (lines 46-63) including its error handling.  A
missing file raises `FileNotFoundError`, which is caught.  Column accesses
happen in source order (`publish_time`, then `abstract`, then `title`); a
missing column raises `KeyError`, which the `except FileNotFoundError`
clause does not catch.  The `authors`, `journal` and `source` columns are
never touched by `load_data`. -/
def load_data_from_source (parse : String → Option Date) (src : Option Table) : LoadResult :=
  match src with
  | none => .unavailable
  | some t =>
    if "publish_time" ∈ t.cols then
      if "abstract" ∈ t.cols then
        if "title" ∈ t.cols then .ok (load_data parse t.rows)
        else .keyError "title"
      else .keyError "abstract"
    else .keyError "publish_time"

/-- The distinct elements of a list, keeping the first occurrence of each —
the key order of a Python dict/`Counter`, and the value set of
`Series.unique()`. -/
def firstUniques {α : Type} [DecidableEq α] : List α → List α
  | [] => []
  | a :: l => a :: (firstUniques l).filter (fun b => decide (b ≠ a))

/-- The sidebar filter state of `app.py` `main` (lines 99-121): multiselect
values for years, journals and sources.  `isin` on a pandas column matches
`NaN` against `NaN`, so options are `Option` values; the year options are
built with `dropna`, the journal and source options are not. -/
structure FilterCriteria where
  years : List (Option Int)
  journals : List (Option String)
  sources : List (Option String)

/-- The conjunction of the three `isin` masks of `app.py` lines 124-128. -/
def rowPasses (c : FilterCriteria) (r : Record) : Bool :=
  decide (r.year ∈ c.years) && decide (r.journal ∈ c.journals) &&
    decide (r.source ∈ c.sources)

/-- `filtered_df = df[years_mask & journals_mask & sources_mask]`
(`app.py` lines 124-128). -/
def apply_filter (store : List Record) (c : FilterCriteria) : List Record :=
  store.filter (rowPasses c)

/-- `sorted(df['year'].dropna().unique())` (`app.py` line 100): the year
filter options; records whose year is absent contribute nothing. -/
def known_years (store : List Record) : List Int :=
  List.insertionSort (fun a b => a ≤ b) (firstUniques (store.filterMap Record.year))

/-- The default (everything-selected) state of the three multiselects:
all known (non-null) years, all journals, all sources. -/
def everything_criteria (store : List Record) : FilterCriteria :=
  { years := (known_years store).map some
    journals := firstUniques (store.map Record.journal)
    sources := firstUniques (store.map Record.source) }

/-- `Series.str.contains(term, case=False, na=False)` on one cell: a missing
cell yields `False` (`na=False`), a present one is tested by the string
matcher `f` (left abstract: pandas interprets the term as a regex). -/
def fieldMatches (f : String → String → Bool) : Option String → String → Bool
  | none, _ => false
  | some s, term => f s term

/-- The search stage of `app.py` `main` (lines 298-305): `if search_term:`
guards the mask, and the mask is a title match OR an abstract match. -/
def search_apply (f : String → String → Bool) (term : String) (view : List Record) :
    List Record :=
  if term = "" then view
  else view.filter (fun r => fieldMatches f r.title term || fieldMatches f r.abstract term)

/-- `filtered_df['year'].value_counts().sort_index()` (`app.py` line 154,
`data_analysis.py` line 123): occurrence counts of each non-null year,
sorted ascending by year. -/
def count_by_year (view : List Record) : List (Int × Nat) :=
  List.insertionSort (fun a b => a.1 ≤ b.1)
    ((firstUniques (view.filterMap Record.year)).map
      (fun y => (y, (view.filterMap Record.year).count y)))

/-- The overview metrics of `app.py` `main` (lines 137-150).  On an empty
view pandas `min`, `max` and `mean` return `NaN` (here `none`) and
`nunique` returns `0`; none of them raises. -/
structure SummaryApp where
  total : Nat
  uniqueJournals : Nat
  yearMin : Option Int
  yearMax : Option Int
  avgAbstractWords : Option Rat
  deriving DecidableEq

/-- `len(filtered_df)`, `filtered_df['journal'].nunique()`,
`filtered_df['year'].min()`/`.max()`,
`filtered_df['abstract_word_count'].mean()` (`app.py` lines 137-150). -/
def summary_app (view : List Record) : SummaryApp :=
  { total := view.length
    uniqueJournals := (firstUniques (view.filterMap Record.journal)).length
    yearMin := (view.filterMap Record.year).min?
    yearMax := (view.filterMap Record.year).max?
    avgAbstractWords :=
      if view.length = 0 then none
      else some (((view.map Record.abstract_word_count).sum : Rat) / (view.length : Rat)) }

/-- `Series.mode().iloc[0]`: `mode()` drops `NaN`, collects the values of
maximal count sorted ascending, and `.iloc[0]` takes the first — raising
`IndexError` when the series (and hence the mode list) is empty. -/
def mode_iloc0 {α : Type} [DecidableEq α] [Min α] (l : List α) : Except String α :=
  match ((firstUniques l).filter
      (fun v => l.count v == (((firstUniques l).map (fun w => l.count w)).max?).getD 0)).min? with
  | none => .error "IndexError"
  | some v => .ok v

/-- The fields printed by `data_analysis.py` `generate_summary_report`
(lines 249-260). -/
structure SummaryBatch where
  total : Nat
  firstYear : Option Int
  lastYear : Option Int
  mostActiveYear : Int
  avgAbstractWords : Option Rat
  mostCommonJournal : String
  primarySource : String
  deriving DecidableEq

/-- `data_analysis.py` `generate_summary_report` (lines 249-260) as an
`Except` computation: `publish_time.min()`/`.max()` give `NaT` on an empty
frame and `NaT.year` is `NaN` (no raise, modelled by the `Option` year
range), but each `mode().iloc[0]` raises `IndexError` on an empty frame —
the year mode (line 257) is reached first. -/
def summary_batch (view : List Record) : Except String SummaryBatch := do
  let ys := (view.filterMap Record.publish_time).map Date.year
  let may ← mode_iloc0 (view.filterMap Record.year)
  let mcj ← mode_iloc0 (view.filterMap Record.journal)
  let ps ← mode_iloc0 (view.filterMap Record.source)
  return { total := view.length
           firstYear := ys.min?
           lastYear := ys.max?
           mostActiveYear := may
           avgAbstractWords :=
             if view.length = 0 then none
             else some (((view.map Record.abstract_word_count).sum : Rat) / (view.length : Rat))
           mostCommonJournal := mcj
           primarySource := ps }

/-- Python `\w` on ASCII text: letters, digits and underscore. -/
def isWordChar (c : Char) : Bool := c.isAlphanum || c == '_'

/-- `re.findall(r'\b\w+\b', text.lower())`: the maximal word-character runs
of the lowercased text, in order. -/
def lower_words (text : String) : List String :=
  (runs isWordChar (text.data.map Char.toLower)).map (fun cs => String.mk cs)

/-- The stop-word set of `app.py` (lines 247-249, also lines 72-74), in
source order. -/
def stop_words_app : List String :=
  ["the", "a", "an", "and", "or", "but", "in", "on", "at", "to", "for", "of", "with", "by",
   "is", "are", "was", "were", "be", "been", "have", "has", "had", "do", "does", "did",
   "will", "would", "could", "should", "may", "might", "can", "this", "that", "these", "those"]

/-- The pronouns by which the stop-word set of `data_analysis.py` (line 178)
extends the one in `app.py`, in source order. -/
def pronoun_words : List String :=
  ["i", "you", "he", "she", "it", "we", "they", "me", "him", "her", "us", "them"]

/-- The stop-word set of `data_analysis.py` (line 178): the literal list
there is the `app.py` list followed by the pronouns, in the same order. -/
def stop_words_analysis : List String := stop_words_app ++ pronoun_words

/-- `[w for w in words if w not in stop_words and len(w) > 2]` applied to
the word-boundary extraction of the lowercased text. -/
def tokenizeWith (sw : List String) (text : String) : List String :=
  (lower_words text).filter (fun w => decide (w ∉ sw) && decide (2 < w.length))

/-- The tokenization pipeline of `app.py` `main` (lines 246-250). -/
def tokenize_app (text : String) : List String := tokenizeWith stop_words_app text

/-- The tokenization pipeline of `data_analysis.py`
`analyze_word_frequency` (lines 175-179). -/
def tokenize_analysis (text : String) : List String := tokenizeWith stop_words_analysis text

/-- Tokenization of one optional cell: a missing cell is removed by
`dropna()` before the titles are joined, so it contributes no tokens. -/
def tokenize_opt (sw : List String) : Option String → List String
  | none => []
  | some s => tokenizeWith sw s

/-- `Counter(words)` as an association list: distinct tokens in
first-occurrence order (Python dict key order), each with its total count. -/
def counter_items (tokens : List String) : List (String × Nat) :=
  (firstUniques tokens).map (fun t => (t, tokens.count t))

/-- The ordering used by `Counter.most_common`: `heapq.nlargest` with the
count as key is documented equivalent to a stable descending sort, i.e. to
sorting by (count descending, original position ascending); elements here
are counter items decorated with their original position. -/
def rankLE (a b : Nat × String × Nat) : Prop :=
  b.2.2 < a.2.2 ∨ (a.2.2 = b.2.2 ∧ a.1 ≤ b.1)

instance : DecidableRel rankLE := fun a b => by
  unfold rankLE; exact inferInstance

instance : IsTotal (Nat × String × Nat) rankLE :=
  ⟨fun a b => by unfold rankLE; omega⟩

instance : IsTrans (Nat × String × Nat) rankLE :=
  ⟨fun a b c hab hbc => by unfold rankLE at hab hbc ⊢; omega⟩

/-- `Counter(tokens).most_common(n)` (`app.py` line 254, `data_analysis.py`
line 183): the counter items stably sorted by descending count, truncated
to `n`. -/
def most_common (tokens : List String) (n : Nat) : List (String × Nat) :=
  ((List.insertionSort rankLE (counter_items tokens).enum).map Prod.snd).take n

/-! Concrete inputs used by witnesses and counterexamples. -/

/-- A raw row whose `publish_time` cell no date parser accepts. -/
def rowBadDate : RawRow :=
  { title := some "Novel Virus Study"
    abstract := some "An abstract"
    authors := some "Smith, J."
    journal := some "J"
    source := some "S"
    publish_time := some "not-a-date" }

/-- The date parser that rejects everything — enough to exercise the
`errors='coerce'` failure path on any cell. -/
def parseNone : String → Option Date := fun _ => none

/-- A one-row store loaded from `rowBadDate`: its single record has an
absent `publish_time` and an absent `year`. -/
def storeBadDate : List Record := load_data parseNone [rowBadDate]

/-- A table whose header lacks `publish_time` (but has the other five
required columns). -/
def tableNoPublishTime : Table :=
  { cols := ["title", "abstract", "authors", "journal", "source"], rows := [] }

/-- A table whose header lacks `abstract` (but has `publish_time`). -/
def tableNoAbstract : Table :=
  { cols := ["title", "authors", "journal", "source", "publish_time"], rows := [] }

/-- A table whose header lacks `title` (but has `publish_time` and
`abstract`). -/
def tableNoTitle : Table :=
  { cols := ["abstract", "authors", "journal", "source", "publish_time"], rows := [] }

/-- A record with both text fields missing, as produced by rows whose
`title` and `abstract` cells are `NaN`. -/
def recNoText : Record :=
  { title := none
    abstract := none
    authors := none
    journal := some "J"
    source := some "S"
    publish_time := none
    year := none
    abstract_word_count := 0
    title_word_count := 0 }

/-- A record with a present year, for witnesses. -/
def recYear2020 : Record :=
  { title := some "A"
    abstract := some "B C"
    authors := none
    journal := some "J"
    source := some "S"
    publish_time := some ⟨2020, 1, 1⟩
    year := some 2020
    abstract_word_count := 2
    title_word_count := 1 }

/-- Criteria selecting year 2020, journal `J` and source `S` only. -/
def criteria2020 : FilterCriteria :=
  { years := [some 2020], journals := [some "J"], sources := [some "S"] }

/-- Criteria selecting nothing at all. -/
def criteriaEmpty : FilterCriteria :=
  { years := [], journals := [], sources := [] }

/-! ### Helper lemmas -/

theorem mem_firstUniques {α : Type} [DecidableEq α] :
    ∀ {l : List α} {a : α}, a ∈ firstUniques l ↔ a ∈ l := by
  intro l
  induction l with
  | nil => intro a; simp [firstUniques]
  | cons b t ih =>
    intro a
    by_cases hab : a = b
    · simp [firstUniques, hab]
    · simp [firstUniques, List.mem_filter, hab, ih]

theorem nodup_firstUniques {α : Type} [DecidableEq α] :
    ∀ l : List α, (firstUniques l).Nodup := by
  intro l
  induction l with
  | nil => simp [firstUniques]
  | cons b t ih =>
    rw [firstUniques, List.nodup_cons]
    refine ⟨fun hmem => ?_, ih.filter _⟩
    have h2 := (List.mem_filter.mp hmem).2
    simp at h2

theorem indexOf_head {α : Type} [BEq α] [LawfulBEq α] (a : α) (l : List α) :
    (a :: l).indexOf a = 0 := by
  simp [List.indexOf, List.findIdx_cons]

theorem indexOf_cons_of_ne {α : Type} [BEq α] [LawfulBEq α] {a b : α} (l : List α)
    (h : b ≠ a) : (b :: l).indexOf a = l.indexOf a + 1 := by
  simp [List.indexOf, List.findIdx_cons, beq_eq_false_iff_ne.mpr h]

theorem pairwise_indexOf_firstUniques {α : Type} [DecidableEq α] [BEq α] [LawfulBEq α] :
    ∀ l : List α, (firstUniques l).Pairwise (fun a b => l.indexOf a < l.indexOf b) := by
  intro l
  induction l with
  | nil => simp [firstUniques]
  | cons c t ih =>
    rw [firstUniques, List.pairwise_cons]
    constructor
    · intro b hb
      have hbne : b ≠ c := by simpa using (List.mem_filter.mp hb).2
      rw [indexOf_head, indexOf_cons_of_ne _ (Ne.symm hbne)]
      omega
    · refine (ih.filter (fun x => decide (x ≠ c))).imp_of_mem ?_
      intro a b ha hb hab
      have hane : a ≠ c := by simpa using (List.mem_filter.mp ha).2
      have hbne : b ≠ c := by simpa using (List.mem_filter.mp hb).2
      rw [indexOf_cons_of_ne _ (Ne.symm hane), indexOf_cons_of_ne _ (Ne.symm hbne)]
      omega

theorem sum_map_ite_beq {α : Type} [BEq α] [LawfulBEq α] (a : α) :
    ∀ u : List α, u.Nodup → a ∈ u →
      (u.map (fun x => if a == x then 1 else 0)).sum = 1 := by
  intro u
  induction u with
  | nil => intro _ h; cases h
  | cons b v ih =>
    intro hnd hmem
    rw [List.nodup_cons] at hnd
    rcases List.mem_cons.mp hmem with rfl | hav
    · have hz : (v.map (fun x => if a == x then 1 else 0)).sum = 0 := by
        apply List.sum_eq_zero
        intro y hy
        obtain ⟨x, hx, rfl⟩ := List.mem_map.mp hy
        have hne : a ≠ x := fun h => hnd.1 (h ▸ hx)
        simp [beq_eq_false_iff_ne.mpr hne]
      simp [hz]
    · have hne : a ≠ b := fun h => hnd.1 (h ▸ hav)
      simp [beq_eq_false_iff_ne.mpr hne, ih hnd.2 hav]

theorem sum_map_count_eq_length {α : Type} [BEq α] [LawfulBEq α] (u : List α)
    (hu : u.Nodup) :
    ∀ l : List α, (∀ x ∈ l, x ∈ u) → (u.map (fun x => l.count x)).sum = l.length := by
  intro l
  induction l with
  | nil => intro _; simp
  | cons a t ih =>
    intro hcover
    have ha : a ∈ u := hcover a (List.mem_cons_self a t)
    have ht : ∀ x ∈ t, x ∈ u := fun x hx => hcover x (List.mem_cons_of_mem a hx)
    simp only [List.count_cons, List.length_cons]
    rw [List.sum_map_add, ih ht, sum_map_ite_beq a u hu ha]

theorem sum_counts_firstUniques {α : Type} [DecidableEq α] [BEq α] [LawfulBEq α]
    (l : List α) : ((firstUniques l).map (fun x => l.count x)).sum = l.length :=
  sum_map_count_eq_length (firstUniques l) (nodup_firstUniques l) l
    (fun _ hx => mem_firstUniques.mpr hx)

theorem loadRow_publish_time (parse : String → Option Date) (row : RawRow) :
    (loadRow parse row).publish_time = row.publish_time.bind parse := rfl

theorem loadRow_year (parse : String → Option Date) (row : RawRow) :
    (loadRow parse row).year = (row.publish_time.bind parse).map Date.year := rfl

theorem length_filterMap_year (v : List Record) (h : ∀ r ∈ v, (Record.year r).isSome) :
    (v.filterMap Record.year).length = v.length := by
  induction v with
  | nil => rfl
  | cons r t ih =>
    have hr := h r (List.mem_cons_self r t)
    obtain ⟨y, hy⟩ := Option.isSome_iff_exists.mp hr
    simp [List.filterMap_cons, hy, ih (fun x hx => h x (List.mem_cons_of_mem r hx))]

theorem count_by_year_sum (view : List Record) :
    ((count_by_year view).map Prod.snd).sum = (view.filterMap Record.year).length := by
  unfold count_by_year
  rw [((List.perm_insertionSort (fun a b => a.1 ≤ b.1) _).map Prod.snd).sum_eq,
    List.map_map]
  exact sum_counts_firstUniques (view.filterMap Record.year)

theorem rankLE_iff (a b : Nat × String × Nat) :
    rankLE a b ↔ (b.2.2 < a.2.2 ∨ (a.2.2 = b.2.2 ∧ a.1 ≤ b.1)) := Iff.rfl

theorem enum_mem_eq {α : Type} (l : List α) (x : Nat × α) (hx : x ∈ l.enum) :
    ∃ h : x.1 < l.length, l.get ⟨x.1, h⟩ = x.2 := by
  obtain ⟨i, hi, hEq⟩ := List.mem_iff_getElem.mp hx
  rw [List.getElem_enum] at hEq
  subst hEq
  exact ⟨by simpa using hi, rfl⟩

/-! ### Claim theorems -/

/-- C1 (amended): with every option of the three everything-selected
multiselects and no search term, the filtered view is exactly the records
whose derived `year` is present, in original store order; records whose
`year` is absent are excluded, because the year options are built with
`dropna()` and `NaN.isin(non-null options)` is false. -/
theorem apply_filter_everything_eq_present_years (store : List Record)
    (f : String → String → Bool) :
    search_apply f "" (apply_filter store (everything_criteria store)) =
      store.filter (fun r => r.year.isSome) := by
  rw [search_apply, if_pos rfl]
  unfold apply_filter
  apply List.filter_congr
  intro r hr
  have hj : r.journal ∈ firstUniques (store.map Record.journal) :=
    mem_firstUniques.mpr (List.mem_map_of_mem Record.journal hr)
  have hs : r.source ∈ firstUniques (store.map Record.source) :=
    mem_firstUniques.mpr (List.mem_map_of_mem Record.source hr)
  unfold rowPasses everything_criteria
  cases hy : r.year with
  | none => simp [hy, List.mem_map]
  | some y =>
    have hyk : y ∈ known_years store := by
      unfold known_years
      rw [List.mem_insertionSort]
      exact mem_firstUniques.mpr (List.mem_filterMap.mpr ⟨r, hr, hy⟩)
    simp [hy, hj, hs, hyk, List.mem_map]

/-- C1 counterexample: the store loaded from one row whose `publish_time`
fails to parse is non-empty, but the everything-selected filter (with no
search term) returns the empty view, not the full store — the claim's
"including records whose derived year is absent" fails on the code. -/
theorem apply_filter_everything_cex :
    search_apply (fun _ _ => false) ""
        (apply_filter storeBadDate (everything_criteria storeBadDate)) = [] ∧
      storeBadDate ≠ [] := by
  constructor
  · decide
  · decide

/-- C2 (amended, the app loader): in `app.py` `load_data`, a row whose
`publish_time` fails to parse yields a record with absent `publish_time`
and absent `year`, the record stays in the store, and no row is dropped. -/
theorem load_data_keeps_malformed_rows (parse : String → Option Date)
    (rows : List RawRow) (row : RawRow) (hmem : row ∈ rows)
    (hbad : row.publish_time.bind parse = none) :
    (loadRow parse row).publish_time = none ∧ (loadRow parse row).year = none ∧
      loadRow parse row ∈ load_data parse rows ∧
      (load_data parse rows).length = rows.length := by
  refine ⟨?_, ?_, ?_, ?_⟩
  · rw [loadRow_publish_time, hbad]
  · rw [loadRow_year, hbad]; rfl
  · exact List.mem_map_of_mem (loadRow parse) hmem
  · simp [load_data]

theorem load_data_keeps_malformed_rows_witness :
    (rowBadDate ∈ [rowBadDate] ∧ rowBadDate.publish_time.bind parseNone = none) ∧
      (loadRow parseNone rowBadDate).publish_time = none ∧
        (loadRow parseNone rowBadDate).year = none ∧
        loadRow parseNone rowBadDate ∈ load_data parseNone [rowBadDate] ∧
        (load_data parseNone [rowBadDate]).length = [rowBadDate].length :=
  ⟨⟨by decide, rfl⟩,
    load_data_keeps_malformed_rows parseNone [rowBadDate] rowBadDate (by decide) rfl⟩

/-- C2 counterexample: `data_analysis.py` `clean_data` removes the row whose
`publish_time` fails to parse (`dropna(subset=['title', 'publish_time'])`
fires on the coerced `NaT`), so the malformed row is removed from that
loaded dataset, contradicting "no malformed row ... is removed". -/
theorem clean_data_drops_malformed_row_cex :
    clean_data parseNone [rowBadDate] = [] ∧ (load_data parseNone [rowBadDate]).length = 1 := by
  constructor
  · decide
  · decide

/-- C3 (amended): on an empty view the app overview metrics report
`year_min`, `year_max` and the abstract-word mean as absent without raising,
but the batch script's summary report raises `IndexError` at
`mode().iloc[0]` when the cleaned dataset is empty. -/
theorem summary_empty_behavior :
    summary_app [] =
        { total := 0, uniqueJournals := 0, yearMin := none, yearMax := none,
          avgAbstractWords := none } ∧
      summary_batch [] = Except.error "IndexError" :=
  ⟨by decide, rfl⟩

/-- C3 counterexample: `generate_summary_report` on an empty dataset raises
`IndexError` (`self.cleaned_df['year'].mode().iloc[0]` on an empty frame),
so "no aggregate operation raises an exception when the view has zero
records" fails on the code. -/
theorem summary_batch_empty_raises_cex :
    summary_batch [] = Except.error "IndexError" := rfl

/-- C4 (amended): only a missing file is surfaced as the handled
`DataUnavailable` outcome; a file whose header lacks `publish_time` (or
`abstract`, or `title`) raises an uncaught `KeyError` instead, and a file
lacking only `authors`, `journal` or `source` loads successfully because
`load_data` never touches those columns. -/
theorem load_data_from_source_spec (parse : String → Option Date) :
    load_data_from_source parse none = LoadResult.unavailable ∧
      (∀ t : Table, "publish_time" ∉ t.cols →
        load_data_from_source parse (some t) = LoadResult.keyError "publish_time") ∧
      (∀ t : Table, "publish_time" ∈ t.cols → "abstract" ∉ t.cols →
        load_data_from_source parse (some t) = LoadResult.keyError "abstract") ∧
      (∀ t : Table, "publish_time" ∈ t.cols → "abstract" ∈ t.cols → "title" ∉ t.cols →
        load_data_from_source parse (some t) = LoadResult.keyError "title") ∧
      (∀ t : Table, "publish_time" ∈ t.cols → "abstract" ∈ t.cols → "title" ∈ t.cols →
        load_data_from_source parse (some t) = LoadResult.ok (load_data parse t.rows)) ∧
      (∀ t : Table, load_data_from_source parse (some t) ≠ LoadResult.unavailable) := by
  refine ⟨rfl, ?_, ?_, ?_, ?_, ?_⟩
  · intro t h
    simp [load_data_from_source, h]
  · intro t h1 h2
    simp [load_data_from_source, h1, h2]
  · intro t h1 h2 h3
    simp [load_data_from_source, h1, h2, h3]
  · intro t h1 h2 h3
    simp [load_data_from_source, h1, h2, h3]
  · intro t
    simp only [load_data_from_source]
    split_ifs <;> simp

theorem load_data_from_source_spec_witness :
    ("publish_time" ∉ tableNoPublishTime.cols ∧
        "publish_time" ∈ tableNoAbstract.cols ∧ "abstract" ∉ tableNoAbstract.cols ∧
        "publish_time" ∈ tableNoTitle.cols ∧ "abstract" ∈ tableNoTitle.cols ∧
        "title" ∉ tableNoTitle.cols) ∧
      load_data_from_source parseNone (some tableNoPublishTime) =
          LoadResult.keyError "publish_time" ∧
        load_data_from_source parseNone (some tableNoAbstract) =
          LoadResult.keyError "abstract" ∧
        load_data_from_source parseNone (some tableNoTitle) =
          LoadResult.keyError "title" ∧
        load_data_from_source parseNone (some tableNoPublishTime) ≠
          LoadResult.unavailable :=
  ⟨⟨by decide, by decide, by decide, by decide, by decide, by decide⟩,
    (load_data_from_source_spec parseNone).2.1 tableNoPublishTime (by decide),
    (load_data_from_source_spec parseNone).2.2.1 tableNoAbstract (by decide) (by decide),
    (load_data_from_source_spec parseNone).2.2.2.1 tableNoTitle (by decide) (by decide)
      (by decide),
    (load_data_from_source_spec parseNone).2.2.2.2.2 tableNoPublishTime⟩

/-- C4 counterexample: a table with every required column except
`publish_time` makes `load_data` raise an uncaught `KeyError`; it is not the
handled `DataUnavailable` outcome the claim requires for missing columns. -/
theorem load_source_missing_column_cex :
    load_data_from_source parseNone (some tableNoPublishTime) =
        LoadResult.keyError "publish_time" ∧
      load_data_from_source parseNone (some tableNoPublishTime) ≠
        LoadResult.unavailable := by
  constructor
  · decide
  · decide

/-- C5: the year counts of `value_counts()` summed over all groups equal the
view's length, for every view the app's filter can produce (the year
multiselect offers only non-null years, so `none ∉ years`) and for every
cleaned dataset of the batch script (which drops rows with unparseable
dates). -/
theorem count_by_year_sum_eq_length (store : List Record) (c : FilterCriteria)
    (hc : (none : Option Int) ∉ c.years) (parse : String → Option Date)
    (rows : List RawRow) :
    ((count_by_year (apply_filter store c)).map Prod.snd).sum =
        (apply_filter store c).length ∧
      ((count_by_year (clean_data parse rows)).map Prod.snd).sum =
        (clean_data parse rows).length := by
  constructor
  · rw [count_by_year_sum]
    apply length_filterMap_year
    intro r hr
    have hp := List.of_mem_filter hr
    simp only [rowPasses, Bool.and_eq_true, decide_eq_true_eq] at hp
    cases hyy : r.year with
    | none => rw [hyy] at hp; exact absurd hp.1.1 hc
    | some y => rfl
  · rw [count_by_year_sum]
    apply length_filterMap_year
    intro r hr
    have hmem := List.mem_filter.mp hr
    have hps : r.publish_time.isSome := by
      have h2 := hmem.2
      simp only [Bool.and_eq_true] at h2
      exact h2.2
    obtain ⟨row', _, rfl⟩ := List.mem_map.mp hmem.1
    rw [loadRow_publish_time] at hps
    obtain ⟨d, hd⟩ := Option.isSome_iff_exists.mp hps
    rw [loadRow_year, hd]
    rfl

theorem count_by_year_sum_eq_length_witness :
    ((none : Option Int) ∉ criteria2020.years) ∧
      (((count_by_year (apply_filter [recYear2020] criteria2020)).map Prod.snd).sum =
          (apply_filter [recYear2020] criteria2020).length ∧
        ((count_by_year (clean_data parseNone [rowBadDate])).map Prod.snd).sum =
          (clean_data parseNone [rowBadDate]).length) :=
  ⟨by decide,
    count_by_year_sum_eq_length [recYear2020] criteria2020 (by decide) parseNone [rowBadDate]⟩

/-- C6: for both pipelines, tokens contain no stop-word of the respective
set and no token of length ≤ 2, the token sequence is an order-preserving
subsequence of the lowercase word-boundary extraction, and empty or null
input tokenizes to the empty sequence. -/
theorem tokenize_spec (text : String) :
    (∀ t ∈ tokenize_app text, t ∉ stop_words_app ∧ 2 < t.length) ∧
      (tokenize_app text).Sublist (lower_words text) ∧
      (∀ t ∈ tokenize_analysis text, t ∉ stop_words_analysis ∧ 2 < t.length) ∧
      (tokenize_analysis text).Sublist (lower_words text) ∧
      tokenize_app "" = [] ∧ tokenize_analysis "" = [] ∧
      tokenize_opt stop_words_app none = [] ∧
      tokenize_opt stop_words_analysis none = [] := by
  refine ⟨?_, ?_, ?_, ?_, rfl, rfl, rfl, rfl⟩
  · intro t ht
    have h2 := (List.mem_filter.mp ht).2
    simpa using h2
  · exact List.filter_sublist _
  · intro t ht
    have h2 := (List.mem_filter.mp ht).2
    simpa using h2
  · exact List.filter_sublist _

theorem tokenize_spec_witness :
    ("cat" ∈ tokenize_app "The Cat" ∧ "cat" ∈ tokenize_analysis "The Cat") ∧
      ("cat" ∉ stop_words_app ∧ 2 < "cat".length) ∧
      ("cat" ∉ stop_words_analysis ∧ 2 < "cat".length) :=
  ⟨⟨by decide, by decide⟩, (tokenize_spec "The Cat").1 "cat" (by decide),
    (tokenize_spec "The Cat").2.2.1 "cat" (by decide)⟩

/-- C8: if each of the three criteria sets of `C1` is a subset of the
corresponding set of `C2`, the `C1`-filtered view is an order-preserving
subsequence of the `C2`-filtered view. -/
theorem apply_filter_monotone (store : List Record) (c1 c2 : FilterCriteria)
    (hy : c1.years ⊆ c2.years) (hj : c1.journals ⊆ c2.journals)
    (hs : c1.sources ⊆ c2.sources) :
    (apply_filter store c1).Sublist (apply_filter store c2) := by
  apply List.monotone_filter_right
  intro r hr
  simp only [rowPasses, Bool.and_eq_true, decide_eq_true_eq] at hr ⊢
  exact ⟨⟨hy hr.1.1, hj hr.1.2⟩, hs hr.2⟩

theorem apply_filter_monotone_witness :
    (criteriaEmpty.years ⊆ criteria2020.years ∧
        criteriaEmpty.journals ⊆ criteria2020.journals ∧
        criteriaEmpty.sources ⊆ criteria2020.sources) ∧
      (apply_filter [recYear2020] criteriaEmpty).Sublist
        (apply_filter [recYear2020] criteria2020) :=
  ⟨⟨by simp [criteriaEmpty], by simp [criteriaEmpty], by simp [criteriaEmpty]⟩,
    apply_filter_monotone [recYear2020] criteriaEmpty criteria2020
      (by simp [criteriaEmpty]) (by simp [criteriaEmpty]) (by simp [criteriaEmpty])⟩

/-- C9 (amended): the batch script's tokenization equals the app's
tokenization followed by removal of the pronoun stop-words; the two agree
exactly on texts none of whose tokens is a pronoun longer than two
characters, and differ otherwise. -/
theorem tokenize_pipelines_relation (text : String) :
    tokenize_analysis text =
      (tokenize_app text).filter (fun w => decide (w ∉ pronoun_words)) := by
  unfold tokenize_analysis tokenize_app tokenizeWith
  rw [List.filter_filter]
  apply List.filter_congr
  intro w _
  by_cases h1 : w ∈ stop_words_app <;> by_cases h2 : w ∈ pronoun_words <;>
    by_cases h3 : 2 < w.length <;>
      simp [stop_words_analysis, List.mem_append, h1, h2, h3]

/-- C9 counterexample: on the text `"you"` the app pipeline yields the token
`you` (length 3, not in the app stop-word set) while the batch pipeline
yields nothing (`you` is a batch stop-word) — the two pipelines do not
produce the same token sequence. -/
theorem tokenize_pipelines_differ_cex :
    tokenize_app "you" = ["you"] ∧ tokenize_analysis "you" = [] := by
  constructor
  · decide
  · decide

/-- C10: under any string matcher and any non-empty search term, a record
with both `title` and `abstract` absent never matches
(`str.contains(..., na=False)` turns the missing cells into `False`), so it
is excluded from the searched view — and no error is raised. -/
theorem search_excludes_absent_text (f : String → String → Bool) (term : String)
    (view : List Record) (r : Record) (hterm : term ≠ "") (ht : r.title = none)
    (ha : r.abstract = none) : r ∉ search_apply f term view := by
  rw [search_apply, if_neg hterm]
  intro hmem
  have hp := (List.mem_filter.mp hmem).2
  rw [ht, ha] at hp
  simp [fieldMatches] at hp

/-- C7: `most_common` is sorted by descending count; among equal counts the
token whose first appearance in the input is earlier precedes the other
(`heapq.nlargest` is stable like `sorted(..., reverse=True)`); and the
result length is at most `n` and at most the number of distinct tokens. -/
theorem most_common_spec (tokens : List String) (n : Nat) (hn : 0 < n) :
    (most_common tokens n).length ≤ n ∧
      (most_common tokens n).length ≤ (firstUniques tokens).length ∧
      (∀ i j (hi : i < (most_common tokens n).length)
          (hj : j < (most_common tokens n).length), i < j →
        ((most_common tokens n).get ⟨j, hj⟩).2 ≤ ((most_common tokens n).get ⟨i, hi⟩).2) ∧
      (∀ i j (hi : i < (most_common tokens n).length)
          (hj : j < (most_common tokens n).length), i < j →
        ((most_common tokens n).get ⟨i, hi⟩).2 = ((most_common tokens n).get ⟨j, hj⟩).2 →
        tokens.indexOf ((most_common tokens n).get ⟨i, hi⟩).1 <
          tokens.indexOf ((most_common tokens n).get ⟨j, hj⟩).1) := by
  simp only [most_common]
  have hperm : List.Perm (List.insertionSort rankLE (counter_items tokens).enum)
      ((counter_items tokens).enum) := List.perm_insertionSort _ _
  have hlenS : (List.insertionSort rankLE (counter_items tokens).enum).length =
      (firstUniques tokens).length := by
    rw [hperm.length_eq, List.enum_length, counter_items, List.length_map]
  have hsorted : (List.insertionSort rankLE (counter_items tokens).enum).Pairwise rankLE :=
    List.sorted_insertionSort rankLE _
  have hfstnd :
      ((List.insertionSort rankLE (counter_items tokens).enum).map Prod.fst).Nodup := by
    rw [(hperm.map Prod.fst).nodup_iff]
    exact List.nodup_enum_map_fst _
  refine ⟨?_, ?_, ?_, ?_⟩
  · rw [List.length_take]
    exact Nat.min_le_left _ _
  · rw [List.length_take, List.length_map, hlenS]
    exact Nat.min_le_right _ _
  · intro i j hi hj hij
    have hi' := hi
    have hj' := hj
    rw [List.length_take, List.length_map] at hi' hj'
    have hiS : i < (List.insertionSort rankLE (counter_items tokens).enum).length :=
      (Nat.lt_min.mp hi').2
    have hjS : j < (List.insertionSort rankLE (counter_items tokens).enum).length :=
      (Nat.lt_min.mp hj').2
    have hrel : rankLE ((List.insertionSort rankLE (counter_items tokens).enum).get ⟨i, hiS⟩)
        ((List.insertionSort rankLE (counter_items tokens).enum).get ⟨j, hjS⟩) :=
      List.pairwise_iff_getElem.mp hsorted i j hiS hjS hij
    rw [rankLE_iff] at hrel
    simp only [List.get_eq_getElem, List.getElem_take, List.getElem_map]
    show ((List.insertionSort rankLE (counter_items tokens).enum).get ⟨j, hjS⟩).2.2 ≤
      ((List.insertionSort rankLE (counter_items tokens).enum).get ⟨i, hiS⟩).2.2
    rcases hrel with h | h
    · exact Nat.le_of_lt h
    · exact Nat.le_of_eq h.1.symm
  · intro i j hi hj hij heq
    have hi' := hi
    have hj' := hj
    rw [List.length_take, List.length_map] at hi' hj'
    have hiS : i < (List.insertionSort rankLE (counter_items tokens).enum).length :=
      (Nat.lt_min.mp hi').2
    have hjS : j < (List.insertionSort rankLE (counter_items tokens).enum).length :=
      (Nat.lt_min.mp hj').2
    simp only [List.get_eq_getElem, List.getElem_take, List.getElem_map] at heq ⊢
    have heq' : ((List.insertionSort rankLE (counter_items tokens).enum).get ⟨i, hiS⟩).2.2 =
        ((List.insertionSort rankLE (counter_items tokens).enum).get ⟨j, hjS⟩).2.2 := heq
    have hrel : rankLE ((List.insertionSort rankLE (counter_items tokens).enum).get ⟨i, hiS⟩)
        ((List.insertionSort rankLE (counter_items tokens).enum).get ⟨j, hjS⟩) :=
      List.pairwise_iff_getElem.mp hsorted i j hiS hjS hij
    rw [rankLE_iff] at hrel
    show tokens.indexOf
        ((List.insertionSort rankLE (counter_items tokens).enum).get ⟨i, hiS⟩).2.1 <
      tokens.indexOf
        ((List.insertionSort rankLE (counter_items tokens).enum).get ⟨j, hjS⟩).2.1
    rcases hrel with hlt | ⟨_, hle⟩
    · exact absurd heq' (by omega)
    · have hne : ((List.insertionSort rankLE (counter_items tokens).enum).get ⟨i, hiS⟩).1 ≠
          ((List.insertionSort rankLE (counter_items tokens).enum).get ⟨j, hjS⟩).1 := by
        intro hEq
        have hmapEq :
            ((List.insertionSort rankLE (counter_items tokens).enum).map Prod.fst).get
                ⟨i, by simpa using hiS⟩ =
              ((List.insertionSort rankLE (counter_items tokens).enum).map Prod.fst).get
                ⟨j, by simpa using hjS⟩ := by
          simpa [List.get_eq_getElem, List.getElem_map] using hEq
        exact absurd (hfstnd.getElem_inj_iff.mp hmapEq) (Nat.ne_of_lt hij)
      have hklt : ((List.insertionSort rankLE (counter_items tokens).enum).get ⟨i, hiS⟩).1 <
          ((List.insertionSort rankLE (counter_items tokens).enum).get ⟨j, hjS⟩).1 := by
        omega
      have hmi : (List.insertionSort rankLE (counter_items tokens).enum).get ⟨i, hiS⟩ ∈
          (counter_items tokens).enum :=
        hperm.mem_iff.mp (List.get_mem _ i hiS)
      have hmj : (List.insertionSort rankLE (counter_items tokens).enum).get ⟨j, hjS⟩ ∈
          (counter_items tokens).enum :=
        hperm.mem_iff.mp (List.get_mem _ j hjS)
      obtain ⟨hki, hgi⟩ := enum_mem_eq _ _ hmi
      obtain ⟨hkj, hgj⟩ := enum_mem_eq _ _ hmj
      have hki' : ((List.insertionSort rankLE (counter_items tokens).enum).get ⟨i, hiS⟩).1 <
          (firstUniques tokens).length := by
        simpa [counter_items] using hki
      have hkj' : ((List.insertionSort rankLE (counter_items tokens).enum).get ⟨j, hjS⟩).1 <
          (firstUniques tokens).length := by
        simpa [counter_items] using hkj
      have e1 : ((List.insertionSort rankLE (counter_items tokens).enum).get ⟨i, hiS⟩).2.1 =
          (firstUniques tokens).get ⟨((List.insertionSort rankLE
              (counter_items tokens).enum).get ⟨i, hiS⟩).1, hki'⟩ := by
        rw [← hgi]
        simp [counter_items]
      have e2 : ((List.insertionSort rankLE (counter_items tokens).enum).get ⟨j, hjS⟩).2.1 =
          (firstUniques tokens).get ⟨((List.insertionSort rankLE
              (counter_items tokens).enum).get ⟨j, hjS⟩).1, hkj'⟩ := by
        rw [← hgj]
        simp [counter_items]
      rw [e1, e2]
      exact List.pairwise_iff_getElem.mp (pairwise_indexOf_firstUniques tokens) _ _ hki' hkj'
        hklt

theorem most_common_spec_witness :
    (most_common ["b", "a", "a"] 2).length ≤ 2 ∧
      (most_common ["b", "a", "a"] 2).length ≤ (firstUniques ["b", "a", "a"]).length ∧
      (∀ i j (hi : i < (most_common ["b", "a", "a"] 2).length)
          (hj : j < (most_common ["b", "a", "a"] 2).length), i < j →
        ((most_common ["b", "a", "a"] 2).get ⟨j, hj⟩).2 ≤
          ((most_common ["b", "a", "a"] 2).get ⟨i, hi⟩).2) ∧
      (∀ i j (hi : i < (most_common ["b", "a", "a"] 2).length)
          (hj : j < (most_common ["b", "a", "a"] 2).length), i < j →
        ((most_common ["b", "a", "a"] 2).get ⟨i, hi⟩).2 =
            ((most_common ["b", "a", "a"] 2).get ⟨j, hj⟩).2 →
        (["b", "a", "a"] : List String).indexOf
            ((most_common ["b", "a", "a"] 2).get ⟨i, hi⟩).1 <
          (["b", "a", "a"] : List String).indexOf
            ((most_common ["b", "a", "a"] 2).get ⟨j, hj⟩).1) :=
  most_common_spec ["b", "a", "a"] 2 (by decide)

theorem search_excludes_absent_text_witness :
    ("virus" ≠ "" ∧ recNoText.title = none ∧ recNoText.abstract = none) ∧
      recNoText ∉ search_apply (fun _ _ => true) "virus" [recNoText] :=
  ⟨⟨by decide, rfl, rfl⟩,
    search_excludes_absent_text (fun _ _ => true) "virus" [recNoText] recNoText
      (by decide) rfl rfl⟩

end Cord19
